import Mathlib

/-!
Shallow embedding of `src/c_solution/play_silence.c` (shibuido/play-silence).

The program opens an ALSA PCM device, configures it (interleaved access,
S16_LE, 2 channels, rate near 44100), then loops writing a calloc-zeroed
silence buffer until a signal clears the `running` flag or the loop aborts
(three failed underrun recoveries, or a fatal write error), and finally
drains and closes the handle.

The environment (device behaviour, signal delivery, allocator) is modelled
as explicit input data:
  * `IterEnv` gives, for one execution of the loop body, the value of the
    `running` flag observed at the `while` test, the outcome of
    `snd_pcm_writei`, and whether `snd_pcm_prepare` would succeed;
  * `InitEnv` gives the return codes of the seven ALSA configuration calls;
  * `MainEnv` bundles argv, the init environment, whether `calloc`
    succeeds, and the per-iteration loop environments.
The functions below mirror the C control flow over this data and record
observable events (recovery-counter trace, write events, drain/close ops).
-/

namespace PlaySilence

/-- Outcome of one `snd_pcm_writei` call: a non-negative frame count,
`-EPIPE` (underrun), or any other negative return (fatal). -/
inductive WriteOutcome
  | written (n : Nat)
  | underrun
  | fatal
  deriving DecidableEq, Repr

/-- Environment for one execution of the loop body: the `running` flag value
observed at the `while` test, the `snd_pcm_writei` outcome, and whether
`snd_pcm_prepare` would succeed (consulted only on underrun). -/
structure IterEnv where
  run : Bool
  write : WriteOutcome
  prepareOk : Bool
  deriving DecidableEq, Repr

/-- `buffer_frames` constant from `play_silence_loop` (line 115). -/
def bufferFrames : Nat := 1024

/-- `max_recovery_attempts` constant from `play_silence_loop` (line 120). -/
def maxRecoveryAttempts : Nat := 3

/-- The silence buffer: `calloc(buffer_frames * 2, sizeof(short))`, i.e. a
zero-filled block of `buffer_frames * 2` 16-bit samples (line 123). -/
def silenceBuffer : List Int := List.replicate (bufferFrames * 2) 0

/-- A write event: the iteration environment in effect and the buffer
contents passed to `snd_pcm_writei`. -/
structure WriteEvent where
  env : IterEnv
  buf : List Int
  deriving DecidableEq, Repr

/-- How the loop ended: `stopped` (while-test saw `running == 0`),
`abortedRecovery` (`recovery_attempts >= max_recovery_attempts` break),
`abortedFatal` (non-EPIPE write error break), `allocFailed` (calloc
returned NULL, early return), or `fuelOut` (the supplied environment list
was exhausted while the loop was still running). -/
inductive LoopExit
  | stopped
  | abortedRecovery
  | abortedFatal
  | allocFailed
  | fuelOut
  deriving DecidableEq, Repr

/-- Result of running the loop: exit kind, final `recovery_attempts` value,
the value of `recovery_attempts` after each executed body (`recTrace`), and
the write calls issued (`writes`), both in execution order. -/
structure LoopResult where
  exit : LoopExit
  recAttempts : Nat
  recTrace : List Nat
  writes : List WriteEvent
  deriving DecidableEq, Repr

/-- The `while (running)` loop of `play_silence_loop` (lines 131-164),
parameterised by the buffer contents (never mutated by the C code, threaded
unchanged), the iteration environments, and the current
`recovery_attempts`.  Each list element drives one pass through the body:
check `running`; call `snd_pcm_writei`; on `-EPIPE` call
`snd_pcm_prepare`, on its failure increment `recovery_attempts` and break
once it reaches the ceiling, otherwise retry; on another negative return
break; on a short count only warn. -/
def loopAux (buf : List Int) : List IterEnv → Nat → LoopResult
  | [], rec => ⟨LoopExit.fuelOut, rec, [], []⟩
  | e :: rest, rec =>
    if e.run then
      match e.write with
      | WriteOutcome.written _n =>
        let r := loopAux buf rest rec
        ⟨r.exit, r.recAttempts, rec :: r.recTrace, ⟨e, buf⟩ :: r.writes⟩
      | WriteOutcome.underrun =>
        if e.prepareOk then
          let r := loopAux buf rest 0
          ⟨r.exit, r.recAttempts, 0 :: r.recTrace, ⟨e, buf⟩ :: r.writes⟩
        else if maxRecoveryAttempts ≤ rec + 1 then
          ⟨LoopExit.abortedRecovery, rec + 1, [rec + 1], [⟨e, buf⟩]⟩
        else
          let r := loopAux buf rest (rec + 1)
          ⟨r.exit, r.recAttempts, (rec + 1) :: r.recTrace, ⟨e, buf⟩ :: r.writes⟩
      | WriteOutcome.fatal =>
        ⟨LoopExit.abortedFatal, rec, [rec], [⟨e, buf⟩]⟩
    else ⟨LoopExit.stopped, rec, [], []⟩

/-- `play_silence_loop` (lines 114-168): allocate the zeroed buffer (an
allocation failure returns at once, having written nothing), then run the
loop with `recovery_attempts = 0`. -/
def play_silence_loop (allocOk : Bool) (envs : List IterEnv) : LoopResult :=
  if allocOk then loopAux silenceBuffer envs 0
  else ⟨LoopExit.allocFailed, 0, [], []⟩

/-- The seven sequential stages of `init_alsa` that can fail. -/
inductive InitStage
  | openDev
  | hwAny
  | access
  | format
  | channels
  | rate
  | commit
  deriving DecidableEq, Repr

/-- Return codes of the seven ALSA calls made by `init_alsa`; a negative
value means that call fails. -/
structure InitEnv where
  openErr : Int
  hwAnyErr : Int
  accessErr : Int
  formatErr : Int
  channelsErr : Int
  rateErr : Int
  commitErr : Int
  deriving DecidableEq, Repr

/-- Result of `init_alsa`: the C return value (0 or -1), whether
`pcm_handle` is non-NULL afterwards (`snd_pcm_open` assigns it before any
later stage can fail), and which stage failed, if any. -/
structure InitResult where
  ret : Int
  handleOpen : Bool
  failedStage : Option InitStage
  deriving DecidableEq, Repr

/-- `init_alsa` (lines 37-111): try the seven calls in order, stopping with
`-1` and a stage-specific error at the first failure. -/
def init_alsa (e : InitEnv) : InitResult :=
  if e.openErr < 0 then ⟨-1, false, some InitStage.openDev⟩
  else if e.hwAnyErr < 0 then ⟨-1, true, some InitStage.hwAny⟩
  else if e.accessErr < 0 then ⟨-1, true, some InitStage.access⟩
  else if e.formatErr < 0 then ⟨-1, true, some InitStage.format⟩
  else if e.channelsErr < 0 then ⟨-1, true, some InitStage.channels⟩
  else if e.rateErr < 0 then ⟨-1, true, some InitStage.rate⟩
  else if e.commitErr < 0 then ⟨-1, true, some InitStage.commit⟩
  else ⟨0, true, none⟩

/-- Operations `cleanup_alsa` performs on the handle. -/
inductive AlsaOp
  | drain
  | close
  deriving DecidableEq, Repr

/-- The global `pcm_handle` state: whether it is non-NULL, plus the log of
drain/close operations performed so far. -/
structure AlsaState where
  handleOpen : Bool
  ops : List AlsaOp
  deriving DecidableEq, Repr

/-- `cleanup_alsa` (lines 171-178): if `pcm_handle` is non-NULL, drain it,
close it and set it to NULL; otherwise do nothing. -/
def cleanup_alsa (s : AlsaState) : AlsaState :=
  if s.handleOpen then ⟨false, s.ops ++ [AlsaOp.drain, AlsaOp.close]⟩
  else s

/-- The `-h` / `--help` test of `main` (line 207). -/
def isHelpArg (a : String) : Bool := a = "-h" || a = "--help"

/-- `true` exactly when `main`'s argument parsing falls through to
`init_alsa`: zero positional arguments, or one that is not a help flag. -/
def argsRunPath : List String → Bool
  | [] => true
  | [a] => !(isHelpArg a)
  | _ => false

/-- Environment of one whole process run: `argv[1..]`, the ALSA
configuration call outcomes, whether `calloc` succeeds, and the loop
iteration environments. -/
structure MainEnv where
  args : List String
  initEnv : InitEnv
  allocOk : Bool
  loopEnvs : List IterEnv
  deriving DecidableEq, Repr

/-- Result of `main`: the process exit code, the final `pcm_handle` state
with its drain/close log, whether the handle ever became non-NULL, and the
loop result (`none` when `play_silence_loop` was never called). -/
structure MainResult where
  exitCode : Nat
  alsa : AlsaState
  opened : Bool
  loop : Option LoopResult
  deriving DecidableEq, Repr

/-- The post-argument-parsing part of `main` (lines 222-234): run
`init_alsa`; on failure call `cleanup_alsa` and return 1; on success run
`play_silence_loop`, then call `cleanup_alsa` and return 0. -/
def main_core (env : MainEnv) : MainResult :=
  let ir := init_alsa env.initEnv
  let s0 : AlsaState := ⟨ir.handleOpen, []⟩
  if ir.ret < 0 then
    ⟨1, cleanup_alsa s0, ir.handleOpen, none⟩
  else
    let lr := play_silence_loop env.allocOk env.loopEnvs
    ⟨0, cleanup_alsa s0, ir.handleOpen, some lr⟩

/-- `main` (lines 197-235): more than one positional argument prints usage
and returns 1; a single `-h`/`--help` prints usage and returns 0; otherwise
proceed to `init_alsa` and the loop. -/
def main_run (env : MainEnv) : MainResult :=
  match env.args with
  | [] => main_core env
  | [a] =>
    if isHelpArg a then ⟨0, ⟨false, []⟩, false, none⟩
    else main_core env
  | _ :: _ :: _ => ⟨1, ⟨false, []⟩, false, none⟩

/-! Equation lemmas for `loopAux`, one per branch of the loop body. -/

theorem loopAux_nil (buf : List Int) (rec : Nat) :
    loopAux buf [] rec = ⟨LoopExit.fuelOut, rec, [], []⟩ := rfl

theorem play_silence_loop_ok (envs : List IterEnv) :
    play_silence_loop true envs = loopAux silenceBuffer envs 0 := rfl

theorem loopAux_stop (buf : List Int) (e : IterEnv) (rest : List IterEnv)
    (rec : Nat) (h : e.run = false) :
    loopAux buf (e :: rest) rec = ⟨LoopExit.stopped, rec, [], []⟩ := by
  simp [loopAux, h]

theorem loopAux_written (buf : List Int) (e : IterEnv) (rest : List IterEnv)
    (rec n : Nat) (hrun : e.run = true) (hw : e.write = WriteOutcome.written n) :
    loopAux buf (e :: rest) rec =
      ⟨(loopAux buf rest rec).exit, (loopAux buf rest rec).recAttempts,
       rec :: (loopAux buf rest rec).recTrace,
       ⟨e, buf⟩ :: (loopAux buf rest rec).writes⟩ := by
  simp [loopAux, hrun, hw]

theorem loopAux_underrun_ok (buf : List Int) (e : IterEnv) (rest : List IterEnv)
    (rec : Nat) (hrun : e.run = true) (hw : e.write = WriteOutcome.underrun)
    (hp : e.prepareOk = true) :
    loopAux buf (e :: rest) rec =
      ⟨(loopAux buf rest 0).exit, (loopAux buf rest 0).recAttempts,
       0 :: (loopAux buf rest 0).recTrace,
       ⟨e, buf⟩ :: (loopAux buf rest 0).writes⟩ := by
  simp [loopAux, hrun, hw, hp]

theorem loopAux_underrun_fail_hi (buf : List Int) (e : IterEnv)
    (rest : List IterEnv) (rec : Nat) (hrun : e.run = true)
    (hw : e.write = WriteOutcome.underrun) (hp : e.prepareOk = false)
    (h3 : maxRecoveryAttempts ≤ rec + 1) :
    loopAux buf (e :: rest) rec =
      ⟨LoopExit.abortedRecovery, rec + 1, [rec + 1], [⟨e, buf⟩]⟩ := by
  simp [loopAux, hrun, hw, hp, h3]

theorem loopAux_underrun_fail_lo (buf : List Int) (e : IterEnv)
    (rest : List IterEnv) (rec : Nat) (hrun : e.run = true)
    (hw : e.write = WriteOutcome.underrun) (hp : e.prepareOk = false)
    (h3 : ¬ maxRecoveryAttempts ≤ rec + 1) :
    loopAux buf (e :: rest) rec =
      ⟨(loopAux buf rest (rec + 1)).exit, (loopAux buf rest (rec + 1)).recAttempts,
       (rec + 1) :: (loopAux buf rest (rec + 1)).recTrace,
       ⟨e, buf⟩ :: (loopAux buf rest (rec + 1)).writes⟩ := by
  simp [loopAux, hrun, hw, hp, h3]

theorem loopAux_fatal (buf : List Int) (e : IterEnv) (rest : List IterEnv)
    (rec : Nat) (hrun : e.run = true) (hw : e.write = WriteOutcome.fatal) :
    loopAux buf (e :: rest) rec =
      ⟨LoopExit.abortedFatal, rec, [rec], [⟨e, buf⟩]⟩ := by
  simp [loopAux, hrun, hw]

/-- Every write event recorded by the loop was issued in a body execution
whose `while` test saw `running` true. -/
theorem loopAux_writes_run (buf : List Int) :
    ∀ (envs : List IterEnv) (rec : Nat),
      ∀ w ∈ (loopAux buf envs rec).writes, w.env.run = true := by
  intro envs
  induction envs with
  | nil =>
    intro rec w hw
    rw [loopAux_nil] at hw
    simp at hw
  | cons e rest ih =>
    intro rec w hw
    cases hrun : e.run with
    | false =>
      rw [loopAux_stop buf e rest rec hrun] at hw
      simp at hw
    | true =>
      cases hwr : e.write with
      | written n =>
        rw [loopAux_written buf e rest rec n hrun hwr] at hw
        simp at hw
        rcases hw with rfl | hw
        · exact hrun
        · exact ih rec w hw
      | underrun =>
        cases hp : e.prepareOk with
        | true =>
          rw [loopAux_underrun_ok buf e rest rec hrun hwr hp] at hw
          simp at hw
          rcases hw with rfl | hw
          · exact hrun
          · exact ih 0 w hw
        | false =>
          by_cases h3 : maxRecoveryAttempts ≤ rec + 1
          · rw [loopAux_underrun_fail_hi buf e rest rec hrun hwr hp h3] at hw
            simp at hw
            subst hw
            exact hrun
          · rw [loopAux_underrun_fail_lo buf e rest rec hrun hwr hp h3] at hw
            simp at hw
            rcases hw with rfl | hw
            · exact hrun
            · exact ih (rec + 1) w hw
      | fatal =>
        rw [loopAux_fatal buf e rest rec hrun hwr] at hw
        simp at hw
        subst hw
        exact hrun

/-- Every write event recorded by the loop carries exactly the buffer the
loop was started with: the loop never swaps or reallocates it. -/
theorem loopAux_writes_buf (buf : List Int) :
    ∀ (envs : List IterEnv) (rec : Nat),
      ∀ w ∈ (loopAux buf envs rec).writes, w.buf = buf := by
  intro envs
  induction envs with
  | nil =>
    intro rec w hw
    rw [loopAux_nil] at hw
    simp at hw
  | cons e rest ih =>
    intro rec w hw
    cases hrun : e.run with
    | false =>
      rw [loopAux_stop buf e rest rec hrun] at hw
      simp at hw
    | true =>
      cases hwr : e.write with
      | written n =>
        rw [loopAux_written buf e rest rec n hrun hwr] at hw
        simp at hw
        rcases hw with rfl | hw
        · rfl
        · exact ih rec w hw
      | underrun =>
        cases hp : e.prepareOk with
        | true =>
          rw [loopAux_underrun_ok buf e rest rec hrun hwr hp] at hw
          simp at hw
          rcases hw with rfl | hw
          · rfl
          · exact ih 0 w hw
        | false =>
          by_cases h3 : maxRecoveryAttempts ≤ rec + 1
          · rw [loopAux_underrun_fail_hi buf e rest rec hrun hwr hp h3] at hw
            simp at hw
            subst hw
            rfl
          · rw [loopAux_underrun_fail_lo buf e rest rec hrun hwr hp h3] at hw
            simp at hw
            rcases hw with rfl | hw
            · rfl
            · exact ih (rec + 1) w hw
      | fatal =>
        rw [loopAux_fatal buf e rest rec hrun hwr] at hw
        simp at hw
        subst hw
        rfl

/-- If the loop body is entered with `recovery_attempts` strictly below the
ceiling, every counter value it ever records stays at or below the
ceiling. -/
theorem loopAux_trace_bound (buf : List Int) :
    ∀ (envs : List IterEnv) (rec : Nat), rec + 1 ≤ maxRecoveryAttempts →
      ∀ c ∈ (loopAux buf envs rec).recTrace, c ≤ maxRecoveryAttempts := by
  intro envs
  induction envs with
  | nil =>
    intro rec _ c hc
    rw [loopAux_nil] at hc
    simp at hc
  | cons e rest ih =>
    intro rec hrec c hc
    cases hrun : e.run with
    | false =>
      rw [loopAux_stop buf e rest rec hrun] at hc
      simp at hc
    | true =>
      cases hwr : e.write with
      | written n =>
        rw [loopAux_written buf e rest rec n hrun hwr] at hc
        simp at hc
        rcases hc with rfl | hc
        · omega
        · exact ih rec hrec c hc
      | underrun =>
        cases hp : e.prepareOk with
        | true =>
          rw [loopAux_underrun_ok buf e rest rec hrun hwr hp] at hc
          simp at hc
          rcases hc with rfl | hc
          · omega
          · exact ih 0 (by decide) c hc
        | false =>
          by_cases h3 : maxRecoveryAttempts ≤ rec + 1
          · rw [loopAux_underrun_fail_hi buf e rest rec hrun hwr hp h3] at hc
            simp at hc
            subst hc
            omega
          · rw [loopAux_underrun_fail_lo buf e rest rec hrun hwr hp h3] at hc
            simp at hc
            rcases hc with rfl | hc
            · omega
            · exact ih (rec + 1) (by omega) c hc
      | fatal =>
        rw [loopAux_fatal buf e rest rec hrun hwr] at hc
        simp at hc
        subst hc
        omega

/-- An `init_alsa` run whose return value is 0 succeeded at every stage,
leaving the handle open and no failed stage. -/
theorem init_alsa_ret_zero (e : InitEnv) (h : (init_alsa e).ret = 0) :
    init_alsa e = ⟨0, true, none⟩ := by
  unfold init_alsa at h ⊢
  split_ifs at h ⊢ <;> simp_all

/-- When argument parsing falls through to the device path, `main_run` is
`main_core`. -/
theorem main_run_eq_core (env : MainEnv) (h : argsRunPath env.args = true) :
    main_run env = main_core env := by
  obtain ⟨args, ie, ak, le⟩ := env
  cases args with
  | nil => rfl
  | cons a rest =>
    cases rest with
    | nil =>
      simp only [argsRunPath, Bool.not_eq_true'] at h
      simp [main_run, h]
    | cons b rest2 => simp [argsRunPath] at h

/-- If the handle ever became non-NULL then parsing fell through to
`main_core` (the other `main` paths never open the device). -/
theorem main_run_opened_core (env : MainEnv)
    (hopen : (main_run env).opened = true) :
    main_run env = main_core env := by
  obtain ⟨args, ie, ak, le⟩ := env
  cases args with
  | nil => rfl
  | cons a rest =>
    cases rest with
    | nil =>
      by_cases hh : isHelpArg a
      · simp [main_run, hh] at hopen
      · simp [main_run, hh]
    | cons b rest2 => simp [main_run] at hopen

/-- Whenever `main_core` leaves the handle flagged as having been opened,
its final ALSA state is: handle NULL, one drain then one close. -/
theorem main_core_cleanup (env : MainEnv)
    (hopen : (main_core env).opened = true) :
    (main_core env).alsa = ⟨false, [AlsaOp.drain, AlsaOp.close]⟩ := by
  unfold main_core at hopen ⊢
  by_cases h : (init_alsa env.initEnv).ret < 0 <;>
    simp only [h, if_true, if_false, ite_true, ite_false, if_pos, if_neg] at hopen ⊢ <;>
    simp_all [cleanup_alsa]

/-! Concrete environments reused by counterexamples and witnesses. -/

/-- An `init_alsa` environment in which all seven ALSA calls succeed. -/
def initOkEnv : InitEnv := ⟨0, 0, 0, 0, 0, 0, 0⟩

/-- Three consecutive underruns whose re-prime fails each time: exhausts
the recovery ceiling. -/
def abortEnvs : List IterEnv :=
  [⟨true, WriteOutcome.underrun, false⟩, ⟨true, WriteOutcome.underrun, false⟩,
   ⟨true, WriteOutcome.underrun, false⟩]

/-- A failed re-prime followed by a fully successful write of
`buffer_frames` frames. -/
def fullWriteEnvs : List IterEnv :=
  [⟨true, WriteOutcome.underrun, false⟩,
   ⟨true, WriteOutcome.written bufferFrames, true⟩]

/-- Claim C1, counterexample: with a successfully configured device and
three consecutive failed re-primes, the loop ends in the aborted state
(`Too many recovery attempts`), yet `main` returns 0 — not the non-zero
exit code the claim requires for an aborted loop. -/
theorem aborted_loop_exit_code_zero_cex :
    ((main_run ⟨[], initOkEnv, true, abortEnvs⟩).loop.map LoopResult.exit =
      some LoopExit.abortedRecovery) ∧
    (main_run ⟨[], initOkEnv, true, abortEnvs⟩).exitCode = 0 := by decide

/-- Claim C1 (amended): if the playback loop terminates — whether in the
ABORTED state (recovery-ceiling exhaustion or a fatal write error) or via
the external stop flag — the process still runs cleanup (the handle is
drained then closed) and then exits with code 0 in all of these cases;
the aborted outcomes do not produce a non-zero exit code. -/
theorem loop_abort_cleanup_and_exit_code (env : MainEnv)
    (hargs : argsRunPath env.args = true)
    (hinit : (init_alsa env.initEnv).ret = 0) :
    (main_run env).loop = some (play_silence_loop env.allocOk env.loopEnvs) ∧
    (main_run env).alsa = ⟨false, [AlsaOp.drain, AlsaOp.close]⟩ ∧
    (main_run env).exitCode = 0 := by
  have hi := init_alsa_ret_zero env.initEnv hinit
  rw [main_run_eq_core env hargs]
  unfold main_core
  simp only [hi]
  norm_num [cleanup_alsa]

/-- Claim C1 witness: the amended statement evaluated on the concrete
aborting run. -/
theorem loop_abort_cleanup_and_exit_code_witness :
    (main_run ⟨[], initOkEnv, true, abortEnvs⟩).loop =
      some (play_silence_loop true abortEnvs) ∧
    (main_run ⟨[], initOkEnv, true, abortEnvs⟩).alsa =
      ⟨false, [AlsaOp.drain, AlsaOp.close]⟩ ∧
    (main_run ⟨[], initOkEnv, true, abortEnvs⟩).exitCode = 0 :=
  loop_abort_cleanup_and_exit_code ⟨[], initOkEnv, true, abortEnvs⟩ rfl rfl

/-- Claim C2, counterexample: in `fullWriteEnvs` the second body execution
is a write that succeeds with the full `buffer_frames` count, yet the
recovery counter after it is still 1 (the value left by the preceding
failed re-prime), not 0 as the claim requires. -/
theorem full_write_counter_not_reset_cex :
    (fullWriteEnvs.get? 1).map IterEnv.write =
      some (WriteOutcome.written bufferFrames) ∧
    (play_silence_loop true fullWriteEnvs).recTrace = [1, 1] := by decide

/-- Claim C2 (amended): a write that succeeds — with the full requested
frame count or a shorter one — leaves the Recovery Counter unchanged; the
counter is reset to 0 only on a successful re-prime after an underrun. -/
theorem counter_reset_only_on_reprime (buf : List Int) (e : IterEnv)
    (rest : List IterEnv) (rec n : Nat) (hrun : e.run = true)
    (hw : e.write = WriteOutcome.written n) :
    (loopAux buf (e :: rest) rec).recTrace.head? = some rec ∧
    ∀ e2 : IterEnv, e2.run = true → e2.write = WriteOutcome.underrun →
      e2.prepareOk = true →
      (loopAux buf (e2 :: rest) rec).recTrace.head? = some 0 := by
  constructor
  · rw [loopAux_written buf e rest rec n hrun hw]
    rfl
  · intro e2 h2run h2w h2p
    rw [loopAux_underrun_ok buf e2 rest rec h2run h2w h2p]
    rfl

/-- Claim C2 witness: a fully successful write entered with counter 2
leaves the counter at 2. -/
theorem counter_reset_only_on_reprime_witness :
    (loopAux silenceBuffer [⟨true, WriteOutcome.written bufferFrames, true⟩] 2).recTrace.head? =
      some 2 :=
  (counter_reset_only_on_reprime silenceBuffer
    ⟨true, WriteOutcome.written bufferFrames, true⟩ [] 2 bufferFrames rfl rfl).1

/-- Claim C3: each failed re-prime after an underrun increments the
Recovery Counter; if the incremented counter reaches the ceiling (3) the
loop aborts immediately (that failed body is its last, with exactly that
one write), otherwise the loop goes on to the next body with the
incremented counter; and over any whole run started at counter 0 the
recorded counter never exceeds 3. -/
theorem recovery_counter_ceiling (e : IterEnv) (rest envs : List IterEnv)
    (rec c : Nat) (hrun : e.run = true)
    (hw : e.write = WriteOutcome.underrun) (hp : e.prepareOk = false)
    (_hrec : rec + 1 ≤ maxRecoveryAttempts)
    (hc : c ∈ (play_silence_loop true envs).recTrace) :
    (loopAux silenceBuffer (e :: rest) rec).recTrace.head? = some (rec + 1) ∧
    (rec + 1 = maxRecoveryAttempts →
      loopAux silenceBuffer (e :: rest) rec =
        ⟨LoopExit.abortedRecovery, rec + 1, [rec + 1], [⟨e, silenceBuffer⟩]⟩) ∧
    (rec + 1 < maxRecoveryAttempts →
      loopAux silenceBuffer (e :: rest) rec =
        ⟨(loopAux silenceBuffer rest (rec + 1)).exit,
         (loopAux silenceBuffer rest (rec + 1)).recAttempts,
         (rec + 1) :: (loopAux silenceBuffer rest (rec + 1)).recTrace,
         ⟨e, silenceBuffer⟩ :: (loopAux silenceBuffer rest (rec + 1)).writes⟩) ∧
    c ≤ maxRecoveryAttempts := by
  refine ⟨?_, ?_, ?_, ?_⟩
  · by_cases h3 : maxRecoveryAttempts ≤ rec + 1
    · rw [loopAux_underrun_fail_hi silenceBuffer e rest rec hrun hw hp h3]
      rfl
    · rw [loopAux_underrun_fail_lo silenceBuffer e rest rec hrun hw hp h3]
      rfl
  · intro hceil
    exact loopAux_underrun_fail_hi silenceBuffer e rest rec hrun hw hp (le_of_eq hceil.symm)
  · intro hlt
    exact loopAux_underrun_fail_lo silenceBuffer e rest rec hrun hw hp (not_le_of_lt hlt)
  · exact loopAux_trace_bound silenceBuffer envs 0 (by decide) c hc

/-- Claim C3 witness: a single failed re-prime starting from counter 0
records counter 1, and the value 1 seen in that run is within the
ceiling. -/
theorem recovery_counter_ceiling_witness :
    (loopAux silenceBuffer [⟨true, WriteOutcome.underrun, false⟩] 0).recTrace.head? =
      some 1 ∧
    (1 : Nat) ≤ maxRecoveryAttempts :=
  ⟨(recovery_counter_ceiling ⟨true, WriteOutcome.underrun, false⟩ []
      [⟨true, WriteOutcome.underrun, false⟩] 0 1 rfl rfl rfl (by decide) (by decide)).1,
   (recovery_counter_ceiling ⟨true, WriteOutcome.underrun, false⟩ []
      [⟨true, WriteOutcome.underrun, false⟩] 0 1 rfl rfl rfl (by decide) (by decide)).2.2.2⟩

/-- Claim C4: on every exit path of the process in which the handle became
non-NULL (clean stop, loop abort by ceiling exhaustion, fatal write error,
or configuration failure after a successful open), the handle is drained
and then closed exactly once before the process exits. -/
theorem handle_drained_closed_once (env : MainEnv)
    (hopen : (main_run env).opened = true) :
    (main_run env).alsa.handleOpen = false ∧
    (main_run env).alsa.ops = [AlsaOp.drain, AlsaOp.close] := by
  have he := main_run_opened_core env hopen
  rw [he] at hopen ⊢
  rw [main_core_cleanup env hopen]
  exact ⟨rfl, rfl⟩

/-- Claim C4 witness: the clean-stop path on a successfully opened device
drains then closes exactly once. -/
theorem handle_drained_closed_once_witness :
    (main_run ⟨[], initOkEnv, true, []⟩).alsa.handleOpen = false ∧
    (main_run ⟨[], initOkEnv, true, []⟩).alsa.ops = [AlsaOp.drain, AlsaOp.close] :=
  handle_drained_closed_once ⟨[], initOkEnv, true, []⟩ (by decide)

/-- Claim C5: the Run Flag is checked at the top of every loop body; every
write the loop issues happens in a body whose check observed the flag
true, and a body whose check observes the flag false exits the loop as
stopped at once, issuing no further write. -/
theorem no_write_after_stop_flag (buf : List Int) (envs : List IterEnv)
    (rec : Nat) :
    (∀ w ∈ (loopAux buf envs rec).writes, w.env.run = true) ∧
    (∀ (e : IterEnv) (rest : List IterEnv), e.run = false →
      loopAux buf (e :: rest) rec = ⟨LoopExit.stopped, rec, [], []⟩) :=
  ⟨loopAux_writes_run buf envs rec,
   fun e rest h => loopAux_stop buf e rest rec h⟩

/-- Claim C5 witness: the single write of a one-iteration run was issued
under a true flag, and a body observing the flag false stops with no
writes. -/
theorem no_write_after_stop_flag_witness :
    (WriteEvent.mk ⟨true, WriteOutcome.written 1024, true⟩ silenceBuffer).env.run = true ∧
    loopAux silenceBuffer [⟨false, WriteOutcome.written 0, true⟩] 0 =
      ⟨LoopExit.stopped, 0, [], []⟩ :=
  ⟨(no_write_after_stop_flag silenceBuffer
      [⟨true, WriteOutcome.written 1024, true⟩] 0).1
      ⟨⟨true, WriteOutcome.written 1024, true⟩, silenceBuffer⟩
      (by rw [loopAux_written silenceBuffer ⟨true, WriteOutcome.written 1024, true⟩
                [] 0 1024 rfl rfl]
          simp),
   (no_write_after_stop_flag silenceBuffer [] 0).2
      ⟨false, WriteOutcome.written 0, true⟩ [] rfl⟩

/-- Claim C6: every write the loop issues passes the one buffer allocated
before the loop (never reallocated), of length `buffer_frames × 2`
samples, and all its samples are zero. -/
theorem silence_buffer_always_zero (envs : List IterEnv) (w : WriteEvent)
    (hw : w ∈ (play_silence_loop true envs).writes) :
    w.buf = silenceBuffer ∧ w.buf.length = bufferFrames * 2 ∧
    ∀ x ∈ w.buf, x = 0 := by
  have hb : w.buf = silenceBuffer := loopAux_writes_buf silenceBuffer envs 0 w hw
  refine ⟨hb, ?_, ?_⟩
  · rw [hb]
    simp [silenceBuffer]
  · intro x hx
    rw [hb] at hx
    simp [silenceBuffer, List.mem_replicate] at hx
    exact hx.2

/-- Claim C6 witness: the write event of a concrete one-iteration run
carries the all-zero buffer of the allocated length. -/
theorem silence_buffer_always_zero_witness :
    (WriteEvent.mk ⟨true, WriteOutcome.written 1024, true⟩ silenceBuffer).buf =
      silenceBuffer ∧
    (WriteEvent.mk ⟨true, WriteOutcome.written 1024, true⟩ silenceBuffer).buf.length =
      bufferFrames * 2 :=
  ⟨(silence_buffer_always_zero [⟨true, WriteOutcome.written 1024, true⟩]
      ⟨⟨true, WriteOutcome.written 1024, true⟩, silenceBuffer⟩
      (by rw [play_silence_loop_ok,
              loopAux_written silenceBuffer ⟨true, WriteOutcome.written 1024, true⟩
                [] 0 1024 rfl rfl]
          simp)).1,
   (silence_buffer_always_zero [⟨true, WriteOutcome.written 1024, true⟩]
      ⟨⟨true, WriteOutcome.written 1024, true⟩, silenceBuffer⟩
      (by rw [play_silence_loop_ok,
              loopAux_written silenceBuffer ⟨true, WriteOutcome.written 1024, true⟩
                [] 0 1024 rfl rfl]
          simp)).2.1⟩

/-- Claim C7: a body whose write succeeds with fewer frames than
`buffer_frames` records the write (the warning is only logged) and the
loop proceeds directly to the next body with the Recovery Counter
unchanged — the same continuation on `rest`, with no retry of the
shortfall inserted. -/
theorem partial_write_warn_continue (buf : List Int) (e : IterEnv)
    (rest : List IterEnv) (rec n : Nat) (hrun : e.run = true)
    (hw : e.write = WriteOutcome.written n) (_hn : n ≠ bufferFrames) :
    loopAux buf (e :: rest) rec =
      ⟨(loopAux buf rest rec).exit, (loopAux buf rest rec).recAttempts,
       rec :: (loopAux buf rest rec).recTrace,
       ⟨e, buf⟩ :: (loopAux buf rest rec).writes⟩ :=
  loopAux_written buf e rest rec n hrun hw

/-- Claim C7 witness: a 5-frame partial write entered with counter 2
continues at counter 2 with the untouched continuation. -/
theorem partial_write_warn_continue_witness :
    loopAux silenceBuffer [⟨true, WriteOutcome.written 5, true⟩] 2 =
      ⟨(loopAux silenceBuffer [] 2).exit, (loopAux silenceBuffer [] 2).recAttempts,
       2 :: (loopAux silenceBuffer [] 2).recTrace,
       ⟨⟨true, WriteOutcome.written 5, true⟩, silenceBuffer⟩ ::
         (loopAux silenceBuffer [] 2).writes⟩ :=
  partial_write_warn_continue silenceBuffer ⟨true, WriteOutcome.written 5, true⟩
    [] 2 5 rfl rfl (by decide)

/-- Claim C8: `cleanup_alsa` is idempotent — a second call right after a
first is a no-op, a call with a NULL handle is a no-op, and after a
successful close the stored handle is NULL. -/
theorem cleanup_idempotent (s : AlsaState) :
    cleanup_alsa (cleanup_alsa s) = cleanup_alsa s ∧
    (s.handleOpen = false → cleanup_alsa s = s) ∧
    (cleanup_alsa s).handleOpen = false := by
  obtain ⟨h, ops⟩ := s
  cases h <;> simp [cleanup_alsa]

/-- Claim C8 witness: the idempotence statement evaluated on the
never-opened handle state. -/
theorem cleanup_idempotent_witness :
    cleanup_alsa (cleanup_alsa ⟨false, []⟩) = cleanup_alsa ⟨false, []⟩ ∧
    cleanup_alsa ⟨false, []⟩ = (⟨false, []⟩ : AlsaState) ∧
    (cleanup_alsa ⟨false, []⟩).handleOpen = false :=
  ⟨(cleanup_idempotent ⟨false, []⟩).1,
   (cleanup_idempotent ⟨false, []⟩).2.1 rfl,
   (cleanup_idempotent ⟨false, []⟩).2.2⟩

/-- Claim C9: when `snd_pcm_open` fails, `init_alsa` aborts at the open
stage with the open-specific error and a NULL handle, the playback loop is
never entered (no write is attempted), and the process exits with
code 1. -/
theorem open_failure_exits_one_no_loop (env : MainEnv)
    (hargs : argsRunPath env.args = true)
    (hopen : env.initEnv.openErr < 0) :
    init_alsa env.initEnv = ⟨-1, false, some InitStage.openDev⟩ ∧
    (main_run env).loop = none ∧
    (main_run env).exitCode = 1 ∧
    (main_run env).opened = false := by
  have hi : init_alsa env.initEnv = ⟨-1, false, some InitStage.openDev⟩ := by
    unfold init_alsa
    rw [if_pos hopen]
  have hmc : main_core env = ⟨1, ⟨false, []⟩, false, none⟩ := by
    unfold main_core
    simp only [hi]
    norm_num [cleanup_alsa]
  rw [main_run_eq_core env hargs, hmc]
  exact ⟨hi, rfl, rfl, rfl⟩

/-- Claim C9 witness: the statement evaluated on a run whose device open
call returns -1. -/
theorem open_failure_exits_one_no_loop_witness :
    init_alsa ⟨-1, 0, 0, 0, 0, 0, 0⟩ = ⟨-1, false, some InitStage.openDev⟩ ∧
    (main_run ⟨[], ⟨-1, 0, 0, 0, 0, 0, 0⟩, true, []⟩).loop = none ∧
    (main_run ⟨[], ⟨-1, 0, 0, 0, 0, 0, 0⟩, true, []⟩).exitCode = 1 ∧
    (main_run ⟨[], ⟨-1, 0, 0, 0, 0, 0, 0⟩, true, []⟩).opened = false :=
  open_failure_exits_one_no_loop ⟨[], ⟨-1, 0, 0, 0, 0, 0, 0⟩, true, []⟩
    rfl (by decide)

/-- Claim C10: if allocation of the silence buffer fails after a
successful `init_alsa`, the loop returns at once having attempted no
write, the handle is still drained and closed, and the process exits with
code 0 — not the configuration-failure code 1. -/
theorem alloc_failure_cleanup_exit_zero (env : MainEnv)
    (hargs : argsRunPath env.args = true)
    (hinit : (init_alsa env.initEnv).ret = 0)
    (halloc : env.allocOk = false) :
    (main_run env).loop = some ⟨LoopExit.allocFailed, 0, [], []⟩ ∧
    (main_run env).alsa = ⟨false, [AlsaOp.drain, AlsaOp.close]⟩ ∧
    (main_run env).exitCode = 0 := by
  have hi := init_alsa_ret_zero env.initEnv hinit
  have hmc : main_core env =
      ⟨0, ⟨false, [AlsaOp.drain, AlsaOp.close]⟩, true,
       some ⟨LoopExit.allocFailed, 0, [], []⟩⟩ := by
    unfold main_core
    simp only [hi]
    norm_num [cleanup_alsa, play_silence_loop, halloc]
  rw [main_run_eq_core env hargs, hmc]
  exact ⟨rfl, rfl, rfl⟩

/-- Claim C10 witness: the statement evaluated on a run whose calloc
fails after a fully successful configuration. -/
theorem alloc_failure_cleanup_exit_zero_witness :
    (main_run ⟨[], initOkEnv, false, []⟩).loop =
      some ⟨LoopExit.allocFailed, 0, [], []⟩ ∧
    (main_run ⟨[], initOkEnv, false, []⟩).alsa =
      ⟨false, [AlsaOp.drain, AlsaOp.close]⟩ ∧
    (main_run ⟨[], initOkEnv, false, []⟩).exitCode = 0 :=
  alloc_failure_cleanup_exit_zero ⟨[], initOkEnv, false, []⟩ rfl rfl rfl

end PlaySilence
